import Mathlib

/-!
Verification of the focus/distraction time tracker (`src/public/app.js`).

The in-memory session state (global variables `totalFocusedMs`,
`totalDistractedMs`, `currentState`, `lastStateChangeTimestamp`) is modelled
as an `AppState` record; timestamps and durations are `Int` milliseconds
(JavaScript numbers hold exact integers in this range).  The stateful
functions of the source are embedded as pure state transformers.
-/

/-- The two active tracking states. JavaScript `currentState` is `'focus'`,
`'distract'` or `null`; we model it as `Option TrackState`. -/
inductive TrackState where
  | focus
  | distract
deriving DecidableEq, Repr

/-- The in-memory session variables of `app.js` (lines 8-11):
`totalFocusedMs`, `totalDistractedMs`, `currentState` and
`lastStateChangeTimestamp` (a `Date` or `null`, modelled as `Option Int`
milliseconds since epoch). -/
structure AppState where
  totalFocusedMs : Int
  totalDistractedMs : Int
  currentState : Option TrackState
  lastStateChangeTimestamp : Option Int
deriving DecidableEq, Repr

/-- `resetStateInMemory` (app.js lines 258-263): zeroes the totals and clears
state and timestamp. -/
def resetStateInMemory : AppState :=
  { totalFocusedMs := 0, totalDistractedMs := 0,
    currentState := none, lastStateChangeTimestamp := none }

/-- The empty record: the initial values of the module-level variables
(app.js lines 8-11), identical to the reset state. -/
def emptyState : AppState := resetStateInMemory

/-- The fold step at the top of `handleStateChange` (app.js lines 149-153):
if `currentState` and `lastStateChangeTimestamp` are both set, the elapsed
time `now - lastStateChangeTimestamp` is added to the bucket of the outgoing
state.  Note the source does NOT clamp a negative `elapsed`. -/
def foldElapsed (s : AppState) (now : Int) : AppState :=
  match s.currentState, s.lastStateChangeTimestamp with
  | some TrackState.focus, some ts =>
      { s with totalFocusedMs := s.totalFocusedMs + (now - ts) }
  | some TrackState.distract, some ts =>
      { s with totalDistractedMs := s.totalDistractedMs + (now - ts) }
  | _, _ => s

/-- `handleStateChange` (app.js lines 148-156), in-memory part: fold the
elapsed interval into the outgoing bucket, then set `currentState := newState`
and `lastStateChangeTimestamp := new Date()` — unconditionally, also when
`newState` is `null`. -/
def handleStateChange (s : AppState) (newState : Option TrackState) (now : Int) : AppState :=
  let s' := foldElapsed s now
  { s' with currentState := newState, lastStateChangeTimestamp := some now }

/-- Sum of the two stored totals. -/
def totalSum (s : AppState) : Int :=
  s.totalFocusedMs + s.totalDistractedMs

/-- A sequence of `handleStateChange` calls, each given as the pair
(new state, timestamp of the call). -/
def runTransitions (s : AppState) (evs : List (Option TrackState × Int)) : AppState :=
  evs.foldl (fun st ev => handleStateChange st ev.1 ev.2) s

/-- The timestamp of the last transition of `evs`, or `t` when `evs` is empty. -/
def finalTimeFrom (t : Int) (evs : List (Option TrackState × Int)) : Int :=
  match evs.getLast? with
  | some e => e.2
  | none => t

/-- The displayed-totals computation of `updateDisplay` (app.js lines
218-226): the stored totals, with `now - lastStateChangeTimestamp` added to
the bucket of the current state when one is active. Read-only derivation. -/
def updateDisplayTotals (s : AppState) (now : Int) : Int × Int :=
  let displayFocus := s.totalFocusedMs
  let displayDistract := s.totalDistractedMs
  match s.currentState, s.lastStateChangeTimestamp with
  | some TrackState.focus, some ts => (displayFocus + (now - ts), displayDistract)
  | some TrackState.distract, some ts => (displayFocus, displayDistract + (now - ts))
  | _, _ => (displayFocus, displayDistract)

/-- Left-pad a decimal numeral to two digits, as `String(n).padStart(2, '0')`. -/
def pad2 (n : Nat) : String :=
  if n < 10 then "0" ++ toString n else toString n

/-- `formatTime` (app.js lines 265-269): clamp negative input to zero, then
render `HH:MM:SS` with zero-padded, unbounded hours. -/
def formatTime (ms : Int) : String :=
  let msc := if ms < 0 then 0 else ms
  let s := (msc / 1000).toNat
  pad2 (s / 3600) ++ ":" ++ pad2 (s % 3600 / 60) ++ ":" ++ pad2 (s % 60)

/-- The `dataToMigrate` payload staged in `sessionStorage` before sign-in
(app.js lines 182-186): the local totals and current state. -/
structure MigrationPayload where
  totalFocusedMs : Int
  totalDistractedMs : Int
  currentState : Option TrackState
deriving DecidableEq, Repr

/-- A Firestore document for one day (`users/{uid}/records/{date}`). All
fields may be absent in a raw document, so each is an `Option`; the
server-assigned `lastStateChangeTimestamp` is modelled as an instant. -/
structure CloudRecord where
  totalFocusedMs : Option Int
  totalDistractedMs : Option Int
  currentState : Option TrackState
  lastStateChangeTimestamp : Option Int
deriving DecidableEq, Repr

/-- A record as stored in IndexedDB by `getCurrentStateAsObject(true)`
(app.js lines 273-289): keyed by date, timestamp serialized as an ISO string
or `null`. -/
structure LocalRecord where
  date : String
  totalFocusedMs : Int
  totalDistractedMs : Int
  currentState : Option TrackState
  lastStateChangeTimestamp : Option String
deriving DecidableEq, Repr

/-- JavaScript `x?.f || 0` on an optional number: `0` when the field is
absent, and `v || 0 = v` except that `0 || 0 = 0`. -/
def jsOrZero (x : Option Int) : Int :=
  match x with
  | none => 0
  | some v => if v = 0 then 0 else v

/-- `getCurrentStateAsObject(false, true)` (app.js lines 273-289): the
Firestore shape of the in-memory state. `lastStateChangeTimestamp` is always
set to the server timestamp, regardless of `currentState`. -/
def getCurrentStateAsObject (s : AppState) (serverNow : Int) : CloudRecord :=
  { totalFocusedMs := some s.totalFocusedMs,
    totalDistractedMs := some s.totalDistractedMs,
    currentState := s.currentState,
    lastStateChangeTimestamp := some serverNow }

/-- The environment touched by the logged-in snapshot handler: the in-memory
session, the `sessionStorage` migration slot, the cloud document for today,
and the IndexedDB record for today. -/
structure SyncEnv where
  mem : AppState
  staged : Option MigrationPayload
  cloud : Option CloudRecord
  localToday : Option LocalRecord
deriving DecidableEq, Repr

/-- The body of the `onSnapshot` callback of `handleLoggedInUser` (app.js
lines 109-140).  The delivered snapshot is the current cloud document
`env.cloud`.  `writeOk`/`deleteOk` say whether the awaited cloud write and
the local delete succeed; a rejected `await` aborts the rest of the handler.

Source order matters: in the migration branch `sessionStorage.removeItem`
runs first, then the merge write, then the local delete. -/
def onSnapshot (env : SyncEnv) (writeOk deleteOk : Bool) (serverNow : Int) : SyncEnv :=
  let serverData := env.cloud
  match env.staged with
  | some dataToMigrate =>
      -- sessionStorage.removeItem('dataToMigrate') happens before the write
      let env1 : SyncEnv := { env with staged := none }
      let migratedData : CloudRecord :=
        { totalFocusedMs :=
            some (jsOrZero (serverData.bind (fun c => c.totalFocusedMs)) +
              dataToMigrate.totalFocusedMs),
          totalDistractedMs :=
            some (jsOrZero (serverData.bind (fun c => c.totalDistractedMs)) +
              dataToMigrate.totalDistractedMs),
          currentState := dataToMigrate.currentState,
          lastStateChangeTimestamp := some serverNow }
      if writeOk then
        let env2 : SyncEnv := { env1 with cloud := some migratedData }
        if deleteOk then { env2 with localToday := none } else env2
      else env1
  | none =>
      match serverData with
      | some sd =>
          { env with mem :=
              { totalFocusedMs := jsOrZero sd.totalFocusedMs,
                totalDistractedMs := jsOrZero sd.totalDistractedMs,
                currentState := sd.currentState,
                lastStateChangeTimestamp := sd.lastStateChangeTimestamp } }
      | none =>
          if writeOk then
            { env with cloud := some (getCurrentStateAsObject env.mem serverNow) }
          else env

/-- The prefix of `handleAuthStateChange` (app.js lines 62-65) relevant to
state: the in-memory session is reset before either branch runs. -/
def authChangeReset (env : SyncEnv) : SyncEnv :=
  { env with mem := resetStateInMemory }

/-- Switching identity to a signed-in user and processing the first snapshot
delivery: `handleAuthStateChange` resets memory, then `handleLoggedInUser`
subscribes and the first `onSnapshot` callback runs against the new
identity's cloud document. -/
def switchAndFirstSnapshot (preMem : AppState) (stagedP : Option MigrationPayload)
    (cloudA : Option CloudRecord) (localT : Option LocalRecord)
    (writeOk deleteOk : Bool) (serverNow : Int) : SyncEnv :=
  let env : SyncEnv :=
    { mem := preMem, staged := stagedP, cloud := cloudA, localToday := localT }
  onSnapshot (authChangeReset env) writeOk deleteOk serverNow

/-- The staging step of the sign-in click handler (app.js lines 181-187):
a `dataToMigrate` payload is written iff today's local record exists and one
of its totals is strictly positive. -/
def stagePayload (localData : Option LocalRecord) : Option MigrationPayload :=
  match localData with
  | some d =>
      if d.totalFocusedMs > 0 ∨ d.totalDistractedMs > 0 then
        some { totalFocusedMs := d.totalFocusedMs,
               totalDistractedMs := d.totalDistractedMs,
               currentState := d.currentState }
      else none
  | none => none

/-- Proleptic Gregorian calendar date of a day number counted from
1970-01-01 (the civil-from-days algorithm used by JavaScript `Date`). -/
def civilFromDays (z0 : Int) : Int × Nat × Nat :=
  let z := z0 + 719468
  let era : Int := Int.fdiv z 146097
  let doe : Nat := (z - era * 146097).toNat
  let yoe : Nat := (doe - doe / 1460 + doe / 36524 - doe / 146096) / 365
  let y : Int := (yoe : Int) + era * 400
  let doy : Nat := doe - (365 * yoe + yoe / 4 - yoe / 100)
  let mp : Nat := (5 * doy + 2) / 153
  let d : Nat := doy - (153 * mp + 2) / 5 + 1
  let m : Nat := if mp < 10 then mp + 3 else mp - 9
  (if m ≤ 2 then y + 1 else y, m, d)

/-- Left-pad a decimal numeral to four digits. -/
def pad4 (n : Nat) : String :=
  if n < 10 then "000" ++ toString n
  else if n < 100 then "00" ++ toString n
  else if n < 1000 then "0" ++ toString n
  else toString n

/-- `YYYY-MM-DD` rendering of a day number. -/
def isoDateKey (dayNumber : Int) : String :=
  let c := civilFromDays dayNumber
  pad4 c.1.toNat ++ "-" ++ pad2 c.2.1 ++ "-" ++ pad2 c.2.2

/-- `getTodayKey` (app.js line 271): `new Date().toISOString().slice(0, 10)`.
`toISOString` renders the instant in UTC, so the key is the UTC calendar day
of the instant `nowMs` (milliseconds since epoch). -/
def getTodayKey (nowMs : Int) : String :=
  isoDateKey (Int.fdiv nowMs 86400000)

/-- Modelled from the spec: the `YYYY-MM-DD` key of the instant interpreted
in the device's local time zone, given the zone's offset east of UTC in
minutes (the spec's "calendar-day identifier in the device's local time
zone"; the source has no such computation — it uses UTC). -/
def localDateKey (nowMs tzOffsetMinutes : Int) : String :=
  isoDateKey (Int.fdiv (nowMs + tzOffsetMinutes * 60000) 86400000)

/-- Along a run of `handleStateChange` calls starting from a state in an
active tracking state, with every transition except possibly the last going
to an active state, the summed totals grow by exactly the time from the start
timestamp to the last transition's timestamp. -/
theorem runTransitions_totalSum (evs : List (Option TrackState × Int)) :
    ∀ (s : AppState) (t : Int), s.currentState.isSome →
      s.lastStateChangeTimestamp = some t →
      (∀ e ∈ evs.dropLast, (Prod.fst e).isSome) →
      totalSum (runTransitions s evs) = totalSum s + (finalTimeFrom t evs - t) := by
  induction evs with
  | nil =>
      intro s t _ _ _
      simp [runTransitions, finalTimeFrom]
  | cons e rest ih =>
      intro s t hcs hts hact
      obtain ⟨a, u⟩ := e
      obtain ⟨st, hst⟩ := Option.isSome_iff_exists.mp hcs
      have hstep : totalSum (handleStateChange s a u) = totalSum s + (u - t) := by
        rcases s with ⟨f, d, cs, ts⟩
        have hst' : cs = some st := hst
        have hts' : ts = some t := hts
        subst hst'
        subst hts'
        cases st <;> simp [handleStateChange, foldElapsed, totalSum] <;> ring
      have hrun : runTransitions s ((a, u) :: rest) =
          runTransitions (handleStateChange s a u) rest := rfl
      rw [hrun]
      cases rest with
      | nil =>
          show totalSum (handleStateChange s a u) = totalSum s + (finalTimeFrom t [(a, u)] - t)
          have hf : finalTimeFrom t [(a, u)] = u := rfl
          rw [hf, hstep]
      | cons r rest' =>
          have ha : a.isSome := by
            apply hact (a, u)
            rw [List.dropLast_cons₂]
            exact List.mem_cons_self _ _
          have hcs2 : (handleStateChange s a u).currentState.isSome := ha
          have hts2 : (handleStateChange s a u).lastStateChangeTimestamp = some u := rfl
          have hact2 : ∀ e ∈ (r :: rest').dropLast, (Prod.fst e).isSome := by
            intro e he
            apply hact e
            rw [List.dropLast_cons₂]
            exact List.mem_cons_of_mem _ he
          have hrec := ih (handleStateChange s a u) u hcs2 hts2 hact2
          rw [hrec, hstep]
          have hft : finalTimeFrom t ((a, u) :: r :: rest') = finalTimeFrom u (r :: rest') := by
            cases hgl : (r :: rest').getLast? with
            | none => simp at hgl
            | some e => simp [finalTimeFrom, List.getLast?_cons_cons, hgl]
          rw [hft]
          ring

/-- C1 counterexample: the transitions `focus` at t = 0, `none` at t = 1,
`focus` at t = 2 have strictly increasing timestamps and never trigger a
negative elapsed time, yet the final totals sum to 1, not tn - t0 = 2: the
interval spent in the `none` state is dropped by the fold, so time IS lost
when a stop occurs before the last transition. -/
theorem conservation_counterexample :
    totalSum (runTransitions emptyState
        [(some TrackState.focus, 0), (none, 1), (some TrackState.focus, 2)]) = 1 ∧
    (1 : Int) ≠ 2 - 0 := by
  decide

/-- C1 (amended): for a sequence of `handleStateChange` calls at timestamps
t0 < t1 < ... < tn starting from the empty record, in which every transition
except possibly the last one goes to an active state (`focus` or `distract`),
the final `totalFocusedMs + totalDistractedMs` equals tn - t0; intervals
spent in the `none` state are not banked, so the restriction to active
intermediate states is necessary. -/
theorem conservation_amended (e0 : Option TrackState × Int)
    (rest : List (Option TrackState × Int))
    (hactive : ∀ e ∈ (e0 :: rest).dropLast, (Prod.fst e).isSome)
    (hmono : List.Chain' (fun a b => a.2 < b.2) (e0 :: rest)) :
    totalSum (runTransitions emptyState (e0 :: rest)) = finalTimeFrom e0.2 rest - e0.2 := by
  obtain ⟨a0, t0⟩ := e0
  have h1 : runTransitions emptyState ((a0, t0) :: rest) =
      runTransitions (handleStateChange emptyState a0 t0) rest := rfl
  have h0 : totalSum (handleStateChange emptyState a0 t0) = 0 := by
    simp [handleStateChange, foldElapsed, emptyState, resetStateInMemory, totalSum]
  cases rest with
  | nil =>
      rw [h1]
      simp only [runTransitions, List.foldl_nil, finalTimeFrom, List.getLast?]
      rw [h0]
      ring
  | cons r rest' =>
      have ha0 : a0.isSome := by
        apply hactive (a0, t0)
        rw [List.dropLast_cons₂]
        exact List.mem_cons_self _ _
      have hact2 : ∀ e ∈ (r :: rest').dropLast, (Prod.fst e).isSome := by
        intro e he
        apply hactive e
        rw [List.dropLast_cons₂]
        exact List.mem_cons_of_mem _ he
      have hrec := runTransitions_totalSum (r :: rest')
        (handleStateChange emptyState a0 t0) t0 ha0 rfl hact2
      rw [h1, hrec, h0]
      ring

/-- Witness for `conservation_amended`: `focus` at t = 0 then `none` at
t = 60000 banks exactly 60000 ms in total. -/
theorem conservation_amended_witness :
    totalSum (runTransitions emptyState [(some TrackState.focus, 0), (none, 60000)]) =
      finalTimeFrom (0 : Int) [((none : Option TrackState), (60000 : Int))] - 0 :=
  conservation_amended (some TrackState.focus, 0) [(none, 60000)]
    (by decide)
    (List.chain'_cons.mpr ⟨by norm_num, List.chain'_singleton _⟩)

/-- A concrete logged-in environment with a staged migration payload and no
cloud record yet, used to exercise the snapshot handler. -/
def envStagedNoCloud : SyncEnv :=
  { mem := emptyState,
    staged := some { totalFocusedMs := 10, totalDistractedMs := 5,
                     currentState := some TrackState.focus },
    cloud := none,
    localToday := some { date := "2026-01-01", totalFocusedMs := 10,
                         totalDistractedMs := 5,
                         currentState := some TrackState.focus,
                         lastStateChangeTimestamp := none } }

/-- A concrete logged-in environment with a staged payload `(50, 0, focus)`
and cloud record `(100, 200, distract)`, the spec's migration example. -/
def envStagedWithCloud : SyncEnv :=
  { mem := emptyState,
    staged := some { totalFocusedMs := 50, totalDistractedMs := 0,
                     currentState := some TrackState.focus },
    cloud := some { totalFocusedMs := some 100, totalDistractedMs := some 200,
                    currentState := some TrackState.distract,
                    lastStateChangeTimestamp := some 42 },
    localToday := some { date := "2026-01-01", totalFocusedMs := 50,
                         totalDistractedMs := 0,
                         currentState := some TrackState.focus,
                         lastStateChangeTimestamp := none } }

/-- C4 counterexample: with a payload staged and the merge write failing, the
snapshot handler still ends with the `dataToMigrate` slot empty (it is removed
before the write, app.js line 116) while the cloud record was never written
and the local record survives — the payload is lost, so no retry is possible. -/
theorem migration_clear_counterexample :
    (onSnapshot envStagedNoCloud false true 7).staged = none ∧
    (onSnapshot envStagedNoCloud false true 7).cloud = none ∧
    (onSnapshot envStagedNoCloud false true 7).localToday = envStagedNoCloud.localToday := by
  decide

/-- C4 (amended): the staged payload is cleared as soon as the snapshot
handler reads it — before the cloud merge write — so whatever the outcome of
the write and the local delete, the slot is empty afterwards; a failed merge
write therefore loses the payload instead of leaving it staged for retry. -/
theorem migration_staged_always_cleared (env : SyncEnv) (p : MigrationPayload)
    (writeOk deleteOk : Bool) (serverNow : Int) (h : env.staged = some p) :
    (onSnapshot env writeOk deleteOk serverNow).staged = none := by
  rcases env with ⟨mem, staged, cloud, localT⟩
  have h' : staged = some p := h
  subst h'
  cases writeOk <;> cases deleteOk <;> simp [onSnapshot]

/-- Witness for `migration_staged_always_cleared`: successful write, failed
local delete, payload still cleared. -/
theorem migration_staged_always_cleared_witness :
    (onSnapshot envStagedNoCloud true false 3).staged = none :=
  migration_staged_always_cleared envStagedNoCloud
    { totalFocusedMs := 10, totalDistractedMs := 5, currentState := some TrackState.focus }
    true false 3 rfl

/-- C5 (confirmed): when both the merge write and the local delete succeed,
the migration writes exactly `(cloudFocus or 0) + payload.totalFocusedMs`,
`(cloudDistract or 0) + payload.totalDistractedMs`, the payload's
`currentState` and the server-assigned timestamp, and the local record for
the date key is deleted. -/
theorem migration_merge_exact (env : SyncEnv) (p : MigrationPayload) (serverNow : Int)
    (h : env.staged = some p) :
    (onSnapshot env true true serverNow).cloud =
      some { totalFocusedMs :=
               some ((env.cloud.bind (fun c => c.totalFocusedMs)).getD 0 +
                 p.totalFocusedMs),
             totalDistractedMs :=
               some ((env.cloud.bind (fun c => c.totalDistractedMs)).getD 0 +
                 p.totalDistractedMs),
             currentState := p.currentState,
             lastStateChangeTimestamp := some serverNow } ∧
    (onSnapshot env true true serverNow).localToday = none := by
  have hj : ∀ x : Option Int, jsOrZero x = x.getD 0 := by
    intro x
    cases x with
    | none => rfl
    | some v => by_cases hv : v = 0 <;> simp [jsOrZero, hv]
  rcases env with ⟨mem, staged, cloud, localT⟩
  have h' : staged = some p := h
  subst h'
  simp [onSnapshot, hj]

/-- Witness for `migration_merge_exact`: cloud `(100, 200, distract)` merged
with payload `(50, 0, focus)` yields exactly `(150, 200, focus)` with the
fresh server timestamp, and the local record is deleted. -/
theorem migration_merge_exact_witness :
    (onSnapshot envStagedWithCloud true true 7).cloud =
      some { totalFocusedMs := some 150, totalDistractedMs := some 200,
             currentState := some TrackState.focus,
             lastStateChangeTimestamp := some 7 } ∧
    (onSnapshot envStagedWithCloud true true 7).localToday = none := by
  have h := migration_merge_exact envStagedWithCloud
    { totalFocusedMs := 50, totalDistractedMs := 0, currentState := some TrackState.focus }
    7 rfl
  norm_num [envStagedWithCloud] at h
  exact h

/-- C6 (confirmed): switching identity to a signed-in user without a staged
payload first resets the in-memory session to `(0, 0, none, absent)`
(`handleAuthStateChange` calls `resetStateInMemory` before branching), so the
outcome of the first snapshot — in particular the cloud record written or
adopted — is identical for any two pre-switch anonymous sessions: the
anonymous totals never influence the authenticated record. -/
theorem identity_switch_isolation (m1 m2 : AppState) (cloudA : Option CloudRecord)
    (localT : Option LocalRecord) (writeOk deleteOk : Bool) (serverNow : Int) :
    switchAndFirstSnapshot m1 none cloudA localT writeOk deleteOk serverNow =
      switchAndFirstSnapshot m2 none cloudA localT writeOk deleteOk serverNow ∧
    (authChangeReset
        { mem := m1, staged := none, cloud := cloudA, localToday := localT }).mem =
      { totalFocusedMs := 0, totalDistractedMs := 0,
        currentState := none, lastStateChangeTimestamp := none } :=
  ⟨rfl, rfl⟩

/-- C2 counterexample: starting from the empty record, `setState(focus)` at
t = 1000 followed by `setState(none)` at t = 0 (clock moved backward) drives
`totalFocusedMs` to -1000: the elapsed time in `handleStateChange` is not
clamped, and a negative total is stored. -/
theorem negative_totals_counterexample :
    (handleStateChange (handleStateChange emptyState (some TrackState.focus) 1000)
        none 0).totalFocusedMs = -1000 ∧
    (handleStateChange (handleStateChange emptyState (some TrackState.focus) 1000)
        none 0).totalFocusedMs < 0 := by
  decide

/-- C2 (amended): only `formatTime` floor-clamps a negative duration to zero
(so the display never shows a negative time); `handleStateChange` does not
clamp, and the totals stay non-negative only under the extra hypothesis that
each transition occurs no earlier than the recorded last-change timestamp. -/
theorem elapsed_clamp_amended :
    (∀ ms : Int, ms < 0 → formatTime ms = formatTime 0) ∧
    (∀ (s : AppState) (newState : Option TrackState) (now : Int),
      0 ≤ s.totalFocusedMs → 0 ≤ s.totalDistractedMs →
      (∀ ts, s.lastStateChangeTimestamp = some ts → ts ≤ now) →
      0 ≤ (handleStateChange s newState now).totalFocusedMs ∧
        0 ≤ (handleStateChange s newState now).totalDistractedMs) := by
  constructor
  · intro ms h
    have h0 : (if ms < 0 then (0 : Int) else ms) = 0 := if_pos h
    simp [formatTime, h0]
  · intro s newState now hf hd hts
    rcases s with ⟨f, d, cs, ts⟩
    cases cs with
    | none =>
        cases ts <;> simp [handleStateChange, foldElapsed] <;> exact ⟨hf, hd⟩
    | some st =>
        cases ts with
        | none => cases st <;> simp [handleStateChange, foldElapsed] <;> exact ⟨hf, hd⟩
        | some t =>
            have ht : t ≤ now := hts t rfl
            simp only at hf hd
            cases st <;> simp [handleStateChange, foldElapsed] <;> omega

/-- Witness for `elapsed_clamp_amended` at concrete inputs. -/
theorem elapsed_clamp_amended_witness :
    formatTime (-5) = formatTime 0 ∧
    0 ≤ (handleStateChange
          { totalFocusedMs := 7, totalDistractedMs := 0,
            currentState := some TrackState.focus, lastStateChangeTimestamp := some 2 }
          none 5).totalFocusedMs :=
  ⟨elapsed_clamp_amended.1 (-5) (by decide),
   (elapsed_clamp_amended.2
      { totalFocusedMs := 7, totalDistractedMs := 0,
        currentState := some TrackState.focus, lastStateChangeTimestamp := some 2 }
      none 5 (by decide) (by decide) (by intro ts h; simp at h; omega)).1⟩

/-- C3 counterexample: `setState(focus)` at t = 0 then `setState(none)` at
t = 5 leaves `currentState = none` with `lastStateChangeTimestamp = some 5`
still present — `handleStateChange` sets the timestamp unconditionally (app.js
line 156), so the present-iff-active invariant fails after a stop. -/
theorem timestamp_invariant_counterexample :
    (handleStateChange (handleStateChange emptyState (some TrackState.focus) 0)
        none 5).currentState = none ∧
    (handleStateChange (handleStateChange emptyState (some TrackState.focus) 0)
        none 5).lastStateChangeTimestamp = some 5 := by
  decide

/-- C3 (amended): every `handleStateChange` sets `currentState` to the new
state and `lastStateChangeTimestamp` to `now` — the timestamp is present after
every transition, including transitions to `none` (so the present-iff-active
biconditional holds after transitions to an active state and after
`resetStateInMemory`, which clears both, but not after a stop). -/
theorem handleStateChange_timestamp_always_set (s : AppState)
    (newState : Option TrackState) (now : Int) :
    (handleStateChange s newState now).currentState = newState ∧
    (handleStateChange s newState now).lastStateChangeTimestamp = some now ∧
    resetStateInMemory.currentState = none ∧
    resetStateInMemory.lastStateChangeTimestamp = none :=
  ⟨rfl, rfl, rfl, rfl⟩

/-- C7 (confirmed): the displayed totals derived by `updateDisplay` at time
`now` equal the stored totals produced by the transition fold of
`handleStateChange` at `now` (for any new state), whenever `now` is not
before the last state change: the display derivation and the fold agree. -/
theorem displayedTotals_eq_fold (s : AppState) (newState : Option TrackState)
    (now : Int) (h : ∀ ts, s.lastStateChangeTimestamp = some ts → ts ≤ now) :
    updateDisplayTotals s now =
      ((handleStateChange s newState now).totalFocusedMs,
       (handleStateChange s newState now).totalDistractedMs) := by
  rcases s with ⟨f, d, cs, ts⟩
  cases cs with
  | none => cases ts <;> rfl
  | some st => cases st <;> cases ts <;> rfl

/-- Witness for `displayedTotals_eq_fold` at a concrete record and instant. -/
theorem displayedTotals_eq_fold_witness :
    updateDisplayTotals
        { totalFocusedMs := 10, totalDistractedMs := 20,
          currentState := some TrackState.focus, lastStateChangeTimestamp := some 2 } 5 =
      ((handleStateChange
          { totalFocusedMs := 10, totalDistractedMs := 20,
            currentState := some TrackState.focus, lastStateChangeTimestamp := some 2 }
          none 5).totalFocusedMs,
       (handleStateChange
          { totalFocusedMs := 10, totalDistractedMs := 20,
            currentState := some TrackState.focus, lastStateChangeTimestamp := some 2 }
          none 5).totalDistractedMs) :=
  displayedTotals_eq_fold
    { totalFocusedMs := 10, totalDistractedMs := 20,
      currentState := some TrackState.focus, lastStateChangeTimestamp := some 2 }
    none 5 (by intro ts h; simp at h; omega)

/-- C8 (confirmed): stopping is idempotent on totals — after `setState(none)`
at `t1`, a second `setState(none)` at `t2 ≥ t1` leaves both totals unchanged,
because the fold guard `currentState && lastStateChangeTimestamp` is false
when `currentState` is `null`. -/
theorem setStateNone_idempotent (s : AppState) (t1 t2 : Int) (h : t1 ≤ t2) :
    (handleStateChange (handleStateChange s none t1) none t2).totalFocusedMs =
      (handleStateChange s none t1).totalFocusedMs ∧
    (handleStateChange (handleStateChange s none t1) none t2).totalDistractedMs =
      (handleStateChange s none t1).totalDistractedMs :=
  ⟨rfl, rfl⟩

/-- Witness for `setStateNone_idempotent` at a concrete record. -/
theorem setStateNone_idempotent_witness :
    (handleStateChange (handleStateChange
        { totalFocusedMs := 3, totalDistractedMs := 4,
          currentState := some TrackState.distract, lastStateChangeTimestamp := some 0 }
        none 1) none 6).totalFocusedMs =
      (handleStateChange
        { totalFocusedMs := 3, totalDistractedMs := 4,
          currentState := some TrackState.distract, lastStateChangeTimestamp := some 0 }
        none 1).totalFocusedMs ∧
    (handleStateChange (handleStateChange
        { totalFocusedMs := 3, totalDistractedMs := 4,
          currentState := some TrackState.distract, lastStateChangeTimestamp := some 0 }
        none 1) none 6).totalDistractedMs =
      (handleStateChange
        { totalFocusedMs := 3, totalDistractedMs := 4,
          currentState := some TrackState.distract, lastStateChangeTimestamp := some 0 }
        none 1).totalDistractedMs :=
  setStateNone_idempotent
    { totalFocusedMs := 3, totalDistractedMs := 4,
      currentState := some TrackState.distract, lastStateChangeTimestamp := some 0 }
    1 6 (by decide)

/-- C9 counterexample: at the instant 2025-12-31T22:30Z, in a zone two hours
east of UTC the local calendar day is 2026-01-01, yet `getTodayKey` (built on
`toISOString`, which renders UTC) returns the UTC day 2025-12-31 — the key is
not the local-time day. -/
theorem getTodayKey_not_local_counterexample :
    getTodayKey 1767220200000 = "2025-12-31" ∧
    localDateKey 1767220200000 120 = "2026-01-01" ∧
    getTodayKey 1767220200000 ≠ localDateKey 1767220200000 120 := by
  decide

/-- C9 (amended): `getTodayKey` returns the `YYYY-MM-DD` key of the instant
interpreted in UTC — equivalently, in a local zone of offset zero — not in
the device's local time zone. -/
theorem getTodayKey_is_utc_day (nowMs : Int) :
    getTodayKey nowMs = localDateKey nowMs 0 := by
  simp [getTodayKey, localDateKey]

/-- C10 (confirmed): the sign-in click handler stages a `dataToMigrate`
payload iff today's local record exists and has a strictly positive total;
an absent or all-zero record stages nothing. -/
theorem stagePayload_iff (localData : Option LocalRecord) :
    (stagePayload localData).isSome ↔
      ∃ d, localData = some d ∧
        (d.totalFocusedMs > 0 ∨ d.totalDistractedMs > 0) := by
  cases localData with
  | none => simp [stagePayload]
  | some d =>
      by_cases h : d.totalFocusedMs > 0 ∨ d.totalDistractedMs > 0 <;>
        simp [stagePayload, h]
